import Mathlib

/-!
# Tiny Water Station Mobile: scheduler and sensor-state model

Shallow embedding of `software/firmware/src/main.cpp`: the `SensorData`
record, the four periodic tasks (`updateSensors`, `transmitLoRa`,
`updateDisplay`, `logToSD`) and the cooperative scheduler `loop`.

Conventions.
* `unsigned long` and `uint32_t` are 32 bits wide on the ESP32-S3 target; they
  are natural numbers with explicit reduction modulo `2 ^ 32`.
* `float` and `double` values are finite binary fractions `± num / 2 ^ k`
  (`FP`); a store into a `float` field rounds to 24 significant bits.
  Infinities and NaN are outside the model.
* Peripheral drivers (TinyGPS++, Adafruit_BME680, RadioLib, SD) are library
  code: their answers are inputs of the model (`TinyGPSPlus`, `TickInput`).
* Debug output on `Serial` is not modelled.
-/

namespace TinyWaterStation

/-! ## Machine numbers -/

/-- Number of values of a 32-bit unsigned integer. -/
def U32 : Nat := 2 ^ 32

/-- The subtraction `a - b` of two `unsigned long` values (wraps modulo `2 ^ 32`). -/
def usub32 (a b : Nat) : Nat := (a + U32 - b % U32) % U32

/-- Finite binary floating-point value `± num / 2 ^ k`. -/
structure FP where
  neg : Bool
  num : Nat
  k : Nat
deriving DecidableEq, Repr

/-- The value `0.0`. -/
def FP.zero : FP := ⟨false, 0, 0⟩

/-- An unsigned integer as a floating-point value. -/
def FP.ofNat (n : Nat) : FP := ⟨false, n, 0⟩

/-- Number of binary digits of `n` (`fuel` bounds the recursion; `fuel = n` suffices). -/
def bitLength : Nat → Nat → Nat
  | 0, _ => 0
  | fuel + 1, n => if n = 0 then 0 else bitLength fuel (n / 2) + 1

/-- Quotient `a / b` rounded to the nearest integer, ties to even. -/
def divRoundEven (a b : Nat) : Nat :=
  let q := a / b
  let r := a % b
  if 2 * r < b then q
  else if b < 2 * r then q + 1
  else if q % 2 = 0 then q else q + 1

/-- The rational `± a / b` rounded to a binary format with `prec` significant
bits and least exponent `emin` (IEEE 754 round-to-nearest-even, no overflow). -/
def roundToPrec (prec : Nat) (emin : Int) (neg : Bool) (a b : Nat) : FP :=
  if a = 0 ∨ b = 0 then ⟨neg, 0, 0⟩
  else
    let la := bitLength a a
    let lb := bitLength b b
    let e : Int :=
      if b * 2 ^ (la - lb) ≤ a * 2 ^ (lb - la) then (la : Int) - lb else (la : Int) - lb - 1
    let u : Int := max (e - ((prec : Int) - 1)) emin
    if 0 ≤ u then ⟨neg, divRoundEven a (b * 2 ^ u.toNat) * 2 ^ u.toNat, 0⟩
    else ⟨neg, divRoundEven (a * 2 ^ (-u).toNat) b, (-u).toNat⟩

/-- Conversion to `float` (binary32), as done by an assignment to a `float` field. -/
def toFloat32 (x : FP) : FP := roundToPrec 24 (-149) x.neg x.num (2 ^ x.k)

/-- The `double` (binary64) quotient `x / d` for a positive integer constant `d`
(`x / 100.0`, `x / 1000.0`). -/
def divDouble (x : FP) (d : Nat) : FP := roundToPrec 53 (-1074) x.neg x.num (2 ^ x.k * d)

/-- The `float` nearest to the decimal literal `a / b`. -/
def floatLit (a b : Nat) : FP := roundToPrec 24 (-149) false a b

/-! ## Text rendering (Arduino `String` constructors) -/

/-- Left padding with the digit zero up to width `n`. -/
def padZeros (n : Nat) (s : String) : String :=
  String.mk (List.replicate (n - s.length) '0') ++ s

/-- Modelled from the spec: the Arduino core constructor `String(float, decimalPlaces)`
is library code outside the repository; the spec asks for rendering "at 6-decimal
precision" and "at 1-decimal precision". The value is rendered in fixed-point
decimal with exactly `decimals` fractional digits, rounded to nearest at the last
digit (half away from zero), with a leading `-` for negative values and no
decimal point when `decimals = 0`. -/
def floatToString (x : FP) (decimals : Nat) : String :=
  let scaled := (x.num * 10 ^ decimals * 2 + 2 ^ x.k) / 2 ^ (x.k + 1)
  let sign := if x.neg ∧ x.num ≠ 0 then "-" else ""
  let intPart := toString (scaled / 10 ^ decimals)
  if decimals = 0 then sign ++ intPart
  else sign ++ intPart ++ "." ++ padZeros decimals (toString (scaled % 10 ^ decimals))

/-- Modelled from the spec: variant of `floatToString` that truncates at the last
digit instead of rounding (used only to show that the choice of rounding does not
rescue the formatting example). -/
def floatToStringTrunc (x : FP) (decimals : Nat) : String :=
  let scaled := (x.num * 10 ^ decimals) / 2 ^ x.k
  let sign := if x.neg ∧ x.num ≠ 0 then "-" else ""
  let intPart := toString (scaled / 10 ^ decimals)
  if decimals = 0 then sign ++ intPart
  else sign ++ intPart ++ "." ++ padZeros decimals (toString (scaled % 10 ^ decimals))

/-- Decimal text of an unsigned integer (Arduino `String(uint32_t)`). -/
def uintToString (n : Nat) : String := toString n

/-! ## Data model -/

/-- The record `struct SensorData` with its default member initialisers. -/
structure SensorData where
  latitude : FP := FP.zero
  longitude : FP := FP.zero
  altitude : FP := FP.zero
  velocity : FP := FP.zero
  gpsFix : Bool := false
  temperature : FP := FP.zero
  humidity : FP := FP.zero
  pressure : FP := FP.zero
  gasResistance : FP := FP.zero
  batteryPercent : FP := FP.zero
  timestamp : Nat := 0
  loraRSSI : Int := 0
deriving DecidableEq, Repr

/-- Interface of the positioning parser object `gps` (library class `TinyGPSPlus`)
over its state type `G`: `encode`, `location.isValid`, `location.lat`,
`location.lng`, `altitude.meters`, `speed.kmph`. -/
structure TinyGPSPlus (G : Type) where
  encode : G → Nat → G
  isValid : G → Bool
  lat : G → FP
  lng : G → FP
  meters : G → FP
  kmph : G → FP

/-- Public result members of the environmental sensor object `bme688`
(library class `Adafruit_BME680`) after `performReading`. -/
structure Adafruit_BME680 where
  temperature : FP
  humidity : FP
  pressure : FP
  gas_resistance : FP
deriving DecidableEq, Repr

/-- The four periodic tasks called from `loop`. -/
inductive Task where
  | updateSensors
  | transmitLoRa
  | updateDisplay
  | logToSD
deriving DecidableEq, Repr

/-- One task invocation made by `loop`: the value of `currentMillis` and the task. -/
structure Dispatch where
  time : Nat
  task : Task
deriving DecidableEq, Repr

/-- State of the log file seen by `logToSD`: its function-local `static bool firstRun`
and the lines printed to the file so far, oldest first. -/
structure SDLog where
  firstRun : Bool := true
  lines : List String := []
deriving DecidableEq, Repr

/-- Everything the environment answers during one call of `loop`. -/
structure TickInput where
  /-- value of `millis()` read at the top of `loop` (an `unsigned long`, below `2 ^ 32`) -/
  currentMillis : Nat
  /-- bytes buffered on `Serial2` when `readGPS` runs -/
  serial2 : List Nat
  /-- result of `bme688.performReading()` -/
  bmeOk : Bool
  /-- members of `bme688` after `performReading()` -/
  bme : Adafruit_BME680
  /-- value of `millis()` read at the end of `updateSensors` -/
  stampMillis : Nat
  /-- whether `SD.open(filename, FILE_WRITE)` yields a usable file -/
  sdWriteOk : Bool
  /-- whether `SD.open(filename, FILE_APPEND)` yields a usable file -/
  sdAppendOk : Bool

/-- Global and function-static program state, with the observable effects. -/
structure State (G : Type) where
  sensorData : SensorData
  gps : G
  lastSensorRead : Nat
  lastLoRaTx : Nat
  lastDisplayUpdate : Nat
  lastSDLog : Nat
  sd : SDLog
  /-- payloads handed to `lora.transmit`, oldest first -/
  loraSent : List String
  /-- task invocations made by `loop`, oldest first -/
  dispatched : List Dispatch

/-- State after `setup`: default `SensorData`, all static timestamps `0`,
`firstRun = true`, nothing sent, written or dispatched. -/
def initState {G : Type} (g : G) : State G :=
  { sensorData := {}, gps := g, lastSensorRead := 0, lastLoRaTx := 0,
    lastDisplayUpdate := 0, lastSDLog := 0, sd := {}, loraSent := [], dispatched := [] }

/-! ## Tasks -/

/-- Function `readGPS`: drain `Serial2` into the parser, then copy the fix. -/
def readGPS {G : Type} (P : TinyGPSPlus G) (bytes : List Nat) (g : G) (s : SensorData) :
    G × SensorData :=
  let g' := bytes.foldl P.encode g
  if P.isValid g' then
    (g', { s with
            latitude := toFloat32 (P.lat g')
            longitude := toFloat32 (P.lng g')
            altitude := toFloat32 (P.meters g')
            velocity := toFloat32 (P.kmph g')
            gpsFix := true })
  else
    (g', { s with gpsFix := false })

/-- Function `readBME688`: on a failed reading return at once, else copy the four
values (pressure in hPa, gas resistance in kOhm). -/
def readBME688 (ok : Bool) (bme : Adafruit_BME680) (s : SensorData) : SensorData :=
  if !ok then s
  else
    { s with
        temperature := toFloat32 bme.temperature
        humidity := toFloat32 bme.humidity
        pressure := toFloat32 (divDouble bme.pressure 100)
        gasResistance := toFloat32 (divDouble bme.gas_resistance 1000) }

/-- Function `updateSensors`: `readGPS`, `readBME688`, then stamp `millis()`. -/
def updateSensors {G : Type} (P : TinyGPSPlus G) (inp : TickInput) (g : G) (s : SensorData) :
    G × SensorData :=
  let r := readGPS P inp.serial2 g s
  let s2 := readBME688 inp.bmeOk inp.bme r.2
  (r.1, { s2 with timestamp := inp.stampMillis % U32 })

/-- The payload built by `transmitLoRa` and passed to `lora.transmit`. -/
def transmitLoRa (s : SensorData) : String :=
  let payload := "\x7b"
  let payload := payload ++ ("\"lat\":" ++ floatToString s.latitude 6 ++ ",")
  let payload := payload ++ ("\"lon\":" ++ floatToString s.longitude 6 ++ ",")
  let payload := payload ++ ("\"alt\":" ++ floatToString s.altitude 1 ++ ",")
  let payload := payload ++ ("\"temp\":" ++ floatToString s.temperature 1 ++ ",")
  let payload := payload ++ ("\"hum\":" ++ floatToString s.humidity 1 ++ ",")
  let payload := payload ++ ("\"pres\":" ++ floatToString s.pressure 1)
  let payload := payload ++ "\x7d"
  payload

/-- The CSV header line printed by `logToSD` on its first run. -/
def csvHeader : String :=
  "timestamp,latitude,longitude,altitude,velocity,temperature,humidity,pressure,gas_resistance,gps_fix"

/-- The CSV row `logLine` built by `logToSD`. -/
def logLine (s : SensorData) : String :=
  let logLine := ""
  let logLine := logLine ++ (uintToString s.timestamp ++ ",")
  let logLine := logLine ++ (floatToString s.latitude 6 ++ ",")
  let logLine := logLine ++ (floatToString s.longitude 6 ++ ",")
  let logLine := logLine ++ (floatToString s.altitude 1 ++ ",")
  let logLine := logLine ++ (floatToString s.velocity 1 ++ ",")
  let logLine := logLine ++ (floatToString s.temperature 1 ++ ",")
  let logLine := logLine ++ (floatToString s.humidity 1 ++ ",")
  let logLine := logLine ++ (floatToString s.pressure 1 ++ ",")
  let logLine := logLine ++ (floatToString s.gasResistance 0 ++ ",")
  let logLine := logLine ++ (if s.gpsFix then "1" else "0")
  logLine

/-- Function `logToSD`: on the first run try to create the file with the header
and clear `firstRun` whatever the outcome; then try to append one row. -/
def logToSD (s : SensorData) (writeOk appendOk : Bool) (sd : SDLog) : SDLog :=
  let sd :=
    if sd.firstRun then
      let sd := if writeOk then { sd with lines := sd.lines ++ [csvHeader] } else sd
      { sd with firstRun := false }
    else sd
  if appendOk then { sd with lines := sd.lines ++ [logLine s] } else sd

/-- Function `updateDisplay`: empty body (rendering not implemented). -/
def updateDisplay (s : SensorData) : SensorData := s

/-! ## Scheduler -/

/-- Constant `sensorInterval` of `loop` (10 Hz). -/
def sensorInterval : Nat := 100

/-- Constant `loRaInterval` of `loop` (1 Hz). -/
def loRaInterval : Nat := 1000

/-- Constant `displayInterval` of `loop` (5 Hz). -/
def displayInterval : Nat := 200

/-- The literal `1000` in the SD-log test of `loop`. -/
def sdLogInterval : Nat := 1000

/-- Records that `loop` calls `task` while `currentMillis = now`. -/
def State.call {G : Type} (st : State G) (now : Nat) (task : Task) : State G :=
  { st with dispatched := st.dispatched ++ [⟨now, task⟩] }

/-- Function `loop`: one scheduler tick. -/
def loop {G : Type} (P : TinyGPSPlus G) (inp : TickInput) (st : State G) : State G :=
  let currentMillis := inp.currentMillis
  let st :=
    if sensorInterval ≤ usub32 currentMillis st.lastSensorRead then
      let st := { st with lastSensorRead := currentMillis }
      let st := st.call currentMillis Task.updateSensors
      let r := updateSensors P inp st.gps st.sensorData
      { st with gps := r.1, sensorData := r.2 }
    else st
  let st :=
    if loRaInterval ≤ usub32 currentMillis st.lastLoRaTx then
      let st := { st with lastLoRaTx := currentMillis }
      let st := st.call currentMillis Task.transmitLoRa
      { st with loraSent := st.loraSent ++ [transmitLoRa st.sensorData] }
    else st
  let st :=
    if displayInterval ≤ usub32 currentMillis st.lastDisplayUpdate then
      let st := { st with lastDisplayUpdate := currentMillis }
      let st := st.call currentMillis Task.updateDisplay
      { st with sensorData := updateDisplay st.sensorData }
    else st
  let st :=
    if sdLogInterval ≤ usub32 currentMillis st.lastSDLog then
      let st := { st with lastSDLog := currentMillis }
      let st := st.call currentMillis Task.logToSD
      { st with sd := logToSD st.sensorData inp.sdWriteOk inp.sdAppendOk st.sd }
    else st
  st

/-- A sequence of scheduler ticks, one call of `loop` per input. -/
def run {G : Type} (P : TinyGPSPlus G) (inps : List TickInput) (st : State G) : State G :=
  inps.foldl (fun s inp => loop P inp s) st

/-- Period of each task as written in `loop`. -/
def period : Task → Nat
  | Task.updateSensors => sensorInterval
  | Task.transmitLoRa => loRaInterval
  | Task.updateDisplay => displayInterval
  | Task.logToSD => sdLogInterval

/-- The static last-dispatch timestamp that `loop` keeps for each task. -/
def lastDispatch {G : Type} (st : State G) : Task → Nat
  | Task.updateSensors => st.lastSensorRead
  | Task.transmitLoRa => st.lastLoRaTx
  | Task.updateDisplay => st.lastDisplayUpdate
  | Task.logToSD => st.lastSDLog

/-- Tasks invoked by the tick that leads from `st` to `st'`, in call order. -/
def invoked {G : Type} (st st' : State G) : List Task :=
  (st'.dispatched.drop st.dispatched.length).map Dispatch.task

/-- Values of `currentMillis` at which `task` has been invoked, oldest first. -/
def dispatchTimes {G : Type} (st : State G) (task : Task) : List Nat :=
  (st.dispatched.filter (fun d => d.task = task)).map Dispatch.time

/-- A sequence of `logToSD` dispatches, each with the `SensorData` current at that
dispatch and the outcome of the two `SD.open` calls. -/
def logRun (calls : List (SensorData × Bool × Bool)) (sd : SDLog) : SDLog :=
  calls.foldl (fun acc c => logToSD c.1 c.2.1 c.2.2 acc) sd

/-- Number of header lines among the lines written. -/
def headerCount (sd : SDLog) : Nat := sd.lines.count csvHeader

/-- Number of data rows among the lines written. -/
def rowCount (sd : SDLog) : Nat := (sd.lines.filter (fun l => l ≠ csvHeader)).length

/-- A receiver stub used for concrete runs: byte `1` yields a valid fix at the
given coordinates, any other byte loses the fix. -/
def stubGPS (lat lng alt spd : FP) : TinyGPSPlus Bool :=
  { encode := fun _ b => b == 1
    isValid := fun g => g
    lat := fun _ => lat
    lng := fun _ => lng
    meters := fun _ => alt
    kmph := fun _ => spd }

/-- A tick input with clock value `t`, nothing buffered and all peripherals failing. -/
def idleTick (t : Nat) : TickInput :=
  { currentMillis := t, serial2 := [], bmeOk := false,
    bme := ⟨FP.zero, FP.zero, FP.zero, FP.zero⟩, stampMillis := t,
    sdWriteOk := false, sdAppendOk := false }

/-- Whether `loop` finds `task` due at clock value `now` in state `st`. -/
def due {G : Type} (st : State G) (now : Nat) (task : Task) : Bool :=
  decide (period task ≤ usub32 now (lastDispatch st task))

/-- Order in which `loop` examines the tasks. -/
def tickOrder : List Task :=
  [Task.updateSensors, Task.transmitLoRa, Task.updateDisplay, Task.logToSD]

/-- Invariant of a task's dispatch history: successive dispatches are at least one
period apart, and the latest one is not after the stored last dispatch, which in
turn is not after the clock bound `c`. -/
def GapInv {G : Type} (st : State G) (t : Task) (c : Nat) : Prop :=
  lastDispatch st t ≤ c ∧
  List.Chain' (fun a b => a + period t ≤ b) (dispatchTimes st t) ∧
  ∀ x ∈ (dispatchTimes st t).getLast?, x ≤ lastDispatch st t

/-- The Sensor State of the formatting example: lat=10.123456, lon=20.654321,
alt=15.0, temp=23.4 as stored in the `float` members, all else default. -/
def exampleState : SensorData :=
  { latitude := floatLit 10123456 1000000
    longitude := floatLit 20654321 1000000
    altitude := floatLit 15 1
    temperature := floatLit 234 10 }

/-! ## Machine arithmetic lemmas -/

theorem usub32_of_le {a b : Nat} (hba : b ≤ a) (ha : a < U32) : usub32 a b = a - b := by
  unfold usub32 U32 at *
  omega

theorem usub32_wrap {l d : Nat} (hl : l < U32) (hd : d < U32) :
    usub32 ((l + d) % U32) l = d := by
  unfold usub32 U32 at *
  omega

/-! ## Scheduler lemmas -/

theorem loop_dispatched {G : Type} (P : TinyGPSPlus G) (inp : TickInput) (st : State G) :
    (loop P inp st).dispatched =
      st.dispatched ++
        (tickOrder.filter (due st inp.currentMillis)).map (Dispatch.mk inp.currentMillis) := by
  unfold loop
  by_cases h1 : sensorInterval ≤ usub32 inp.currentMillis st.lastSensorRead <;>
  by_cases h2 : loRaInterval ≤ usub32 inp.currentMillis st.lastLoRaTx <;>
  by_cases h3 : displayInterval ≤ usub32 inp.currentMillis st.lastDisplayUpdate <;>
  by_cases h4 : sdLogInterval ≤ usub32 inp.currentMillis st.lastSDLog <;>
  simp [h1, h2, h3, h4, State.call, tickOrder, due, period, lastDispatch]

theorem loop_lastDispatch {G : Type} (P : TinyGPSPlus G) (inp : TickInput) (st : State G)
    (t : Task) :
    lastDispatch (loop P inp st) t =
      if due st inp.currentMillis t then inp.currentMillis else lastDispatch st t := by
  unfold loop
  by_cases h1 : sensorInterval ≤ usub32 inp.currentMillis st.lastSensorRead <;>
  by_cases h2 : loRaInterval ≤ usub32 inp.currentMillis st.lastLoRaTx <;>
  by_cases h3 : displayInterval ≤ usub32 inp.currentMillis st.lastDisplayUpdate <;>
  by_cases h4 : sdLogInterval ≤ usub32 inp.currentMillis st.lastSDLog <;>
  cases t <;>
  simp [h1, h2, h3, h4, State.call, due, period, lastDispatch]

theorem invoked_loop {G : Type} (P : TinyGPSPlus G) (inp : TickInput) (st : State G) :
    invoked st (loop P inp st) = tickOrder.filter (due st inp.currentMillis) := by
  unfold invoked
  rw [loop_dispatched]
  simp [List.map_map, Function.comp_def]

theorem mem_invoked_loop {G : Type} (P : TinyGPSPlus G) (inp : TickInput) (st : State G)
    (t : Task) :
    t ∈ invoked st (loop P inp st) ↔ period t ≤ usub32 inp.currentMillis (lastDispatch st t) := by
  rw [invoked_loop]
  cases t <;> simp [tickOrder, due]

theorem dispatchTimes_loop {G : Type} (P : TinyGPSPlus G) (inp : TickInput) (st : State G)
    (t : Task) :
    dispatchTimes (loop P inp st) t =
      dispatchTimes st t ++ (if due st inp.currentMillis t then [inp.currentMillis] else []) := by
  unfold dispatchTimes
  rw [loop_dispatched]
  cases t <;>
  cases h1 : due st inp.currentMillis Task.updateSensors <;>
  cases h2 : due st inp.currentMillis Task.transmitLoRa <;>
  cases h3 : due st inp.currentMillis Task.updateDisplay <;>
  cases h4 : due st inp.currentMillis Task.logToSD <;>
  simp [tickOrder, h1, h2, h3, h4, List.filter_cons]

theorem due_of_le {G : Type} (st : State G) (now : Nat) (t : Task)
    (hle : lastDispatch st t ≤ now) (hnow : now < U32) :
    due st now t = decide (period t ≤ now - lastDispatch st t) := by
  unfold due
  rw [usub32_of_le hle hnow]

theorem run_nil {G : Type} (P : TinyGPSPlus G) (st : State G) : run P [] st = st := rfl

theorem run_cons {G : Type} (P : TinyGPSPlus G) (inp : TickInput) (inps : List TickInput)
    (st : State G) : run P (inp :: inps) st = run P inps (loop P inp st) := rfl

theorem run_three {G : Type} (P : TinyGPSPlus G) (a b c : TickInput) (st : State G) :
    run P [a, b, c] st = loop P c (loop P b (loop P a st)) := by
  rw [run_cons, run_cons, run_cons, run_nil]

theorem lastDispatch_updateSensors {G : Type} (st : State G) :
    lastDispatch st Task.updateSensors = st.lastSensorRead := rfl

theorem loop_step {G : Type} (P : TinyGPSPlus G) (inp : TickInput) (st : State G) (t : Task)
    (now last : Nat) (hnow : inp.currentMillis = now) (hl : lastDispatch st t = last)
    (hle : last ≤ now) (hlt : now < U32) :
    lastDispatch (loop P inp st) t = (if period t ≤ now - last then now else last) ∧
    dispatchTimes (loop P inp st) t =
      dispatchTimes st t ++ (if period t ≤ now - last then [now] else []) ∧
    (t ∈ invoked st (loop P inp st) ↔ period t ≤ now - last) := by
  subst hnow
  subst hl
  rw [loop_lastDispatch, dispatchTimes_loop, due_of_le st _ t hle hlt, mem_invoked_loop,
    usub32_of_le hle hlt]
  simp

/-! ## Scheduler tick -/

/-- C1: in one call of `loop` with clock value `now`, for each task whose last
dispatch is not after `now`, the task is invoked iff `now - lastDispatch ≥ period`
(periods 100, 1000, 200, 1000 ms); when invoked its last dispatch becomes exactly
`now`, otherwise it is unchanged; the decision depends on nothing but the task's own
last dispatch and `now`, and all four tasks run in the tick when all four are due. -/
theorem loop_dispatch_rule {G : Type} (P : TinyGPSPlus G) (inp : TickInput) (st : State G)
    (hnow : inp.currentMillis < U32) :
    (period Task.updateSensors = 100 ∧ period Task.transmitLoRa = 1000 ∧
      period Task.updateDisplay = 200 ∧ period Task.logToSD = 1000) ∧
    (∀ t, lastDispatch st t ≤ inp.currentMillis →
      ((t ∈ invoked st (loop P inp st) ↔ period t ≤ inp.currentMillis - lastDispatch st t) ∧
       (t ∈ invoked st (loop P inp st) → lastDispatch (loop P inp st) t = inp.currentMillis) ∧
       (t ∉ invoked st (loop P inp st) → lastDispatch (loop P inp st) t = lastDispatch st t))) ∧
    (∀ t (inp2 : TickInput) (st2 : State G), inp2.currentMillis = inp.currentMillis →
      lastDispatch st2 t = lastDispatch st t →
      (t ∈ invoked st2 (loop P inp2 st2) ↔ t ∈ invoked st (loop P inp st))) ∧
    ((∀ t, lastDispatch st t ≤ inp.currentMillis ∧
        period t ≤ inp.currentMillis - lastDispatch st t) →
      ∀ t, (invoked st (loop P inp st)).count t = 1) := by
  refine ⟨⟨rfl, rfl, rfl, rfl⟩, ?_, ?_, ?_⟩
  · intro t hle
    rw [mem_invoked_loop, loop_lastDispatch, usub32_of_le hle hnow]
    refine ⟨Iff.rfl, ?_, ?_⟩
    · intro h
      simp [due, usub32_of_le hle hnow, h]
    · intro h
      simp [due, usub32_of_le hle hnow, h]
  · intro t inp2 st2 h1 h2
    rw [mem_invoked_loop, mem_invoked_loop, h1, h2]
  · intro h t
    have hd : ∀ t, due st inp.currentMillis t = true := by
      intro t
      simp [due, usub32_of_le (h t).1 hnow, (h t).2]
    rw [invoked_loop]
    cases t <;> simp [tickOrder, hd, List.count_cons]

/-- Witness for C1: the tick at `now = 1000` from the initial state dispatches all
four tasks and sets each last dispatch to `1000`. -/
theorem loop_dispatch_rule_witness :
    (idleTick 1000).currentMillis < U32 ∧
    lastDispatch (initState false) Task.logToSD ≤ (idleTick 1000).currentMillis ∧
    Task.logToSD ∈ invoked (initState false)
      (loop (stubGPS FP.zero FP.zero FP.zero FP.zero) (idleTick 1000) (initState false)) ∧
    lastDispatch (loop (stubGPS FP.zero FP.zero FP.zero FP.zero) (idleTick 1000)
      (initState false)) Task.logToSD = 1000 :=
  have h := (loop_dispatch_rule (stubGPS FP.zero FP.zero FP.zero FP.zero) (idleTick 1000)
    (initState false) (by decide)).2.1 Task.logToSD (by decide)
  have hin := h.1.2 (by decide)
  ⟨by decide, by decide, hin, h.2.1 hin⟩

/-- C3 (as stated, refuted): at the tick `now = 1000` from the initial state all
four tasks are due, and the invocations are not
`[updateSensors, transmitLoRa, logToSD, updateDisplay]`: `updateDisplay` is called
before `logToSD`. -/
theorem loop_order_counterexample :
    (∀ t, due (initState false) (idleTick 1000).currentMillis t = true) ∧
    invoked (initState false)
      (loop (stubGPS FP.zero FP.zero FP.zero FP.zero) (idleTick 1000) (initState false)) ≠
      [Task.updateSensors, Task.transmitLoRa, Task.logToSD, Task.updateDisplay] := by
  constructor
  · intro t
    cases t <;> decide
  · decide

/-- C3 (amended): the tasks due in a tick are invoked in the fixed order
updateSensors, transmitLoRa, updateDisplay, logToSD: the invocations of a tick are
that list restricted to the due tasks, and the whole list when all four are due. -/
theorem loop_order {G : Type} (P : TinyGPSPlus G) (inp : TickInput) (st : State G) :
    invoked st (loop P inp st) =
      [Task.updateSensors, Task.transmitLoRa, Task.updateDisplay, Task.logToSD].filter
        (fun t => decide (period t ≤ usub32 inp.currentMillis (lastDispatch st t))) ∧
    ((∀ t, period t ≤ usub32 inp.currentMillis (lastDispatch st t)) →
      invoked st (loop P inp st) =
        [Task.updateSensors, Task.transmitLoRa, Task.updateDisplay, Task.logToSD]) := by
  have h := invoked_loop P inp st
  refine ⟨h, ?_⟩
  intro hall
  rw [h]
  simp [tickOrder, due, hall]

/-- Witness for C3 (amended): all four tasks are due at `now = 1000` from the
initial state and run in the order updateSensors, transmitLoRa, updateDisplay,
logToSD. -/
theorem loop_order_witness :
    invoked (initState false)
      (loop (stubGPS FP.zero FP.zero FP.zero FP.zero) (idleTick 1000) (initState false)) =
      [Task.updateSensors, Task.transmitLoRa, Task.updateDisplay, Task.logToSD] :=
  (loop_order (stubGPS FP.zero FP.zero FP.zero FP.zero) (idleTick 1000) (initState false)).2
    (by intro t; cases t <;> decide)

/-- C10: the elapsed-time test is exact across wrap-around of the 32-bit clock: if
`d < 2 ^ 32` milliseconds have passed since the task's last dispatch, so that
`now = (lastDispatch + d) mod 2 ^ 32`, then the 32-bit difference `now - lastDispatch`
is `d` and the task is invoked in that tick iff `d ≥ period`. -/
theorem loop_wraparound {G : Type} (P : TinyGPSPlus G) (inp : TickInput) (st : State G)
    (t : Task) (d : Nat) (hlast : lastDispatch st t < U32) (hd : d < U32)
    (hnow : inp.currentMillis = (lastDispatch st t + d) % U32) :
    usub32 inp.currentMillis (lastDispatch st t) = d ∧
    (t ∈ invoked st (loop P inp st) ↔ period t ≤ d) := by
  have h : usub32 inp.currentMillis (lastDispatch st t) = d := by
    rw [hnow]
    exact usub32_wrap hlast hd
  refine ⟨h, ?_⟩
  rw [mem_invoked_loop, h]

/-- Witness for C10: last dispatch at `2 ^ 32 - 50`, 100 ms later the clock has
wrapped to `50`, numerically below the last dispatch, and the acquisition task is
dispatched. -/
theorem loop_wraparound_witness :
    (idleTick 50).currentMillis <
      lastDispatch ({ initState false with lastSensorRead := 4294967246 }) Task.updateSensors ∧
    Task.updateSensors ∈ invoked ({ initState false with lastSensorRead := 4294967246 })
      (loop (stubGPS FP.zero FP.zero FP.zero FP.zero) (idleTick 50)
        ({ initState false with lastSensorRead := 4294967246 })) :=
  ⟨by decide,
   (loop_wraparound (stubGPS FP.zero FP.zero FP.zero FP.zero) (idleTick 50)
      ({ initState false with lastSensorRead := 4294967246 }) Task.updateSensors 100
      (by decide) (by decide) (by decide)).2.2 (by decide)⟩

/-! ## Sequences of ticks -/

theorem gapInv_loop {G : Type} (P : TinyGPSPlus G) (inp : TickInput) (st : State G)
    (t : Task) (c : Nat) (hinv : GapInv st t c) (hc : c ≤ inp.currentMillis)
    (hnow : inp.currentMillis < U32) : GapInv (loop P inp st) t inp.currentMillis := by
  obtain ⟨hle, hchain, hlast⟩ := hinv
  have hle2 : lastDispatch st t ≤ inp.currentMillis := le_trans hle hc
  unfold GapInv
  rw [loop_lastDispatch, dispatchTimes_loop]
  cases hdue : due st inp.currentMillis t with
  | false =>
    simp only [if_false, List.append_nil, Bool.false_eq_true]
    exact ⟨hle2, hchain, hlast⟩
  | true =>
    simp only [if_true]
    have hper : period t ≤ inp.currentMillis - lastDispatch st t := by
      have := hdue
      simp only [due, decide_eq_true_eq] at this
      rwa [usub32_of_le hle2 hnow] at this
    refine ⟨le_refl _, ?_, ?_⟩
    · rw [List.chain'_append]
      refine ⟨hchain, List.chain'_singleton _, ?_⟩
      intro x hx y hy
      have hxl := hlast x hx
      simp only [List.head?_cons, Option.mem_def, Option.some.injEq] at hy
      omega
    · intro x hx
      simp at hx
      omega

theorem gapInv_run {G : Type} (P : TinyGPSPlus G) (t : Task) :
    ∀ (inps : List TickInput) (st : State G) (c : Nat),
      GapInv st t c →
      List.Chain' (fun a b => a ≤ b) (c :: inps.map TickInput.currentMillis) →
      (∀ inp ∈ inps, inp.currentMillis < U32) →
      ∃ c2, GapInv (run P inps st) t c2 := by
  intro inps
  induction inps with
  | nil => intro st c h _ _; exact ⟨c, h⟩
  | cons inp rest ih =>
    intro st c h hmono hlt
    rw [run_cons]
    simp only [List.map_cons, List.chain'_cons] at hmono
    exact ih (loop P inp st) inp.currentMillis
      (gapInv_loop P inp st t c h hmono.1 (hlt inp (List.mem_cons_self _ _)))
      hmono.2 (fun i hi => hlt i (List.mem_cons_of_mem _ hi))

/-- C2: for every sequence of calls of `loop` driven by a non-decreasing 32-bit
millisecond clock from the initial state (every last dispatch `0`), and for every
task, the clock values of successive dispatches of that task differ by at least the
task's period. -/
theorem dispatch_gap {G : Type} (P : TinyGPSPlus G) (g : G) (inps : List TickInput)
    (hmono : List.Chain' (fun a b => a ≤ b) (inps.map TickInput.currentMillis))
    (hlt : ∀ inp ∈ inps, inp.currentMillis < U32) (t : Task) :
    List.Chain' (fun a b => a + period t ≤ b) (dispatchTimes (run P inps (initState g)) t) := by
  have h0 : GapInv (initState g) t 0 := by
    refine ⟨by cases t <;> simp [lastDispatch, initState], ?_, ?_⟩ <;>
    simp [dispatchTimes, initState]
  have hm : List.Chain' (fun a b => a ≤ b) (0 :: inps.map TickInput.currentMillis) := by
    rw [List.chain'_cons']
    exact ⟨fun y _ => Nat.zero_le y, hmono⟩
  obtain ⟨c2, h⟩ := gapInv_run P t inps (initState g) 0 h0 hm hlt
  exact h.2.1

set_option maxRecDepth 100000 in
/-- Witness for C2: ticks at 0, 100, 150, 250, 1000, 1100 ms dispatch the acquisition
task at 100, 250, 1000 and 1100 ms, each at least 100 ms after the one before. -/
theorem dispatch_gap_witness :
    dispatchTimes (run (stubGPS FP.zero FP.zero FP.zero FP.zero)
      [idleTick 0, idleTick 100, idleTick 150, idleTick 250, idleTick 1000, idleTick 1100]
      (initState false)) Task.updateSensors = [100, 250, 1000, 1100] ∧
    List.Chain' (fun a b => a + period Task.updateSensors ≤ b)
      (dispatchTimes (run (stubGPS FP.zero FP.zero FP.zero FP.zero)
        [idleTick 0, idleTick 100, idleTick 150, idleTick 250, idleTick 1000, idleTick 1100]
        (initState false)) Task.updateSensors) :=
  ⟨by decide,
   dispatch_gap (stubGPS FP.zero FP.zero FP.zero FP.zero) false
     [idleTick 0, idleTick 100, idleTick 150, idleTick 250, idleTick 1000, idleTick 1100]
     (by simp [idleTick]) (by simp [idleTick, U32]) Task.updateSensors⟩

set_option maxRecDepth 100000 in
/-- C4 (as stated, refuted): from the initial state the tick at `t = 0` does not
dispatch the acquisition task (`0 - 0 = 0 < 100`); over the ticks at 0, 100 and
250 ms it is dispatched at 100 and 250 only. -/
theorem drift_counterexample :
    Task.updateSensors ∉ invoked (initState false)
      (loop (stubGPS FP.zero FP.zero FP.zero FP.zero) (idleTick 0) (initState false)) ∧
    dispatchTimes (run (stubGPS FP.zero FP.zero FP.zero FP.zero)
      [idleTick 0, idleTick 100, idleTick 250] (initState false)) Task.updateSensors ≠
      [0, 100, 250] := by
  constructor <;> decide

/-- C4 (amended): from the initial state, ticks at 0, 100 and 250 ms (whatever the
peripherals answer) dispatch the acquisition task at 100 and at 250 and not at 0;
afterwards its last dispatch is 250, and a following tick with clock value
`t ≥ 250` dispatches it iff `t ≥ 350` (not at 349, at 350). -/
theorem drift_schedule {G : Type} (P : TinyGPSPlus G) (g : G) (e0 e1 e2 e3 : TickInput) :
    Task.updateSensors ∉ invoked (initState g)
      (loop P { e0 with currentMillis := 0 } (initState g)) ∧
    dispatchTimes (run P [{ e0 with currentMillis := 0 }, { e1 with currentMillis := 100 },
      { e2 with currentMillis := 250 }] (initState g)) Task.updateSensors = [100, 250] ∧
    (run P [{ e0 with currentMillis := 0 }, { e1 with currentMillis := 100 },
      { e2 with currentMillis := 250 }] (initState g)).lastSensorRead = 250 ∧
    ∀ t, 250 ≤ t → t < U32 →
      (Task.updateSensors ∈
          invoked (run P [{ e0 with currentMillis := 0 }, { e1 with currentMillis := 100 },
            { e2 with currentMillis := 250 }] (initState g))
          (loop P { e3 with currentMillis := t }
            (run P [{ e0 with currentMillis := 0 }, { e1 with currentMillis := 100 },
              { e2 with currentMillis := 250 }] (initState g))) ↔ 350 ≤ t) := by
  have hp : period Task.updateSensors = 100 := rfl
  have l0 : lastDispatch (initState g) Task.updateSensors = 0 := rfl
  have d0 : dispatchTimes (initState g) Task.updateSensors = [] := rfl
  have s1 := loop_step P { e0 with currentMillis := 0 } (initState g) Task.updateSensors 0 0
    rfl l0 (Nat.le_refl 0) (by decide)
  rw [hp, d0] at s1
  simp only [Nat.sub_self, Nat.not_succ_le_zero, if_false, List.append_nil] at s1
  have s2 := loop_step P { e1 with currentMillis := 100 } _ Task.updateSensors 100 0
    rfl s1.1 (by decide) (by decide)
  rw [hp, s1.2.1] at s2
  simp only [Nat.sub_zero, Nat.le_refl, if_true, List.nil_append] at s2
  have s3 := loop_step P { e2 with currentMillis := 250 } _ Task.updateSensors 250 100
    rfl s2.1 (by decide) (by decide)
  rw [hp, s2.2.1] at s3
  have h150 : (100 : Nat) ≤ 250 - 100 := by decide
  simp only [h150, if_true, List.singleton_append] at s3
  rw [run_three]
  refine ⟨?_, s3.2.1, (lastDispatch_updateSensors _).symm.trans s3.1, ?_⟩
  · rw [s1.2.2]
    decide
  · intro t h250 hlt
    have s4 := loop_step P { e3 with currentMillis := t } _ Task.updateSensors t 250
      rfl s3.1 h250 hlt
    rw [s4.2.2, hp]
    omega

/-- Witness for C4 (amended): after the ticks at 0, 100 and 250 ms a tick at 350 ms
dispatches the acquisition task. -/
theorem drift_schedule_witness :
    Task.updateSensors ∈
      invoked (run (stubGPS FP.zero FP.zero FP.zero FP.zero)
          [{ idleTick 0 with currentMillis := 0 }, { idleTick 0 with currentMillis := 100 },
            { idleTick 0 with currentMillis := 250 }] (initState false))
        (loop (stubGPS FP.zero FP.zero FP.zero FP.zero) { idleTick 0 with currentMillis := 350 }
          (run (stubGPS FP.zero FP.zero FP.zero FP.zero)
            [{ idleTick 0 with currentMillis := 0 }, { idleTick 0 with currentMillis := 100 },
              { idleTick 0 with currentMillis := 250 }] (initState false))) :=
  ((drift_schedule (stubGPS FP.zero FP.zero FP.zero FP.zero) false (idleTick 0) (idleTick 0)
    (idleTick 0) (idleTick 0)).2.2.2 350 (by decide) (by decide)).2 (by decide)

/-! ## Sensor acquisition -/

/-- C5: after `readGPS` has fed every buffered byte to the parser, if the parser
reports no valid fix then latitude, longitude, altitude and velocity keep their
values, `gpsFix` is false and every other field is unchanged; if it reports a valid
fix the four position fields are the parser's accessor values (as stored in the
`float` members) and `gpsFix` is true. -/
theorem readGPS_fix {G : Type} (P : TinyGPSPlus G) (bytes : List Nat) (g : G)
    (s : SensorData) :
    (readGPS P bytes g s).1 = bytes.foldl P.encode g ∧
    (P.isValid (bytes.foldl P.encode g) = false →
      (readGPS P bytes g s).2.latitude = s.latitude ∧
      (readGPS P bytes g s).2.longitude = s.longitude ∧
      (readGPS P bytes g s).2.altitude = s.altitude ∧
      (readGPS P bytes g s).2.velocity = s.velocity ∧
      (readGPS P bytes g s).2.gpsFix = false ∧
      (readGPS P bytes g s).2 = { s with gpsFix := false }) ∧
    (P.isValid (bytes.foldl P.encode g) = true →
      (readGPS P bytes g s).2.latitude = toFloat32 (P.lat (bytes.foldl P.encode g)) ∧
      (readGPS P bytes g s).2.longitude = toFloat32 (P.lng (bytes.foldl P.encode g)) ∧
      (readGPS P bytes g s).2.altitude = toFloat32 (P.meters (bytes.foldl P.encode g)) ∧
      (readGPS P bytes g s).2.velocity = toFloat32 (P.kmph (bytes.foldl P.encode g)) ∧
      (readGPS P bytes g s).2.gpsFix = true) := by
  refine ⟨?_, ?_, ?_⟩
  · unfold readGPS
    by_cases h : P.isValid (bytes.foldl P.encode g) = true <;> simp [h]
  · intro h
    simp [readGPS, h]
  · intro h
    simp [readGPS, h]

/-- Witness for C5: with a receiver that holds a fix after byte `1` and loses it
after any other byte, the batch `[1, 0]` leaves the example position in place with
`gpsFix = false`, and the batch `[0, 1]` yields `gpsFix = true`. -/
theorem readGPS_fix_witness :
    (readGPS (stubGPS (FP.ofNat 1) (FP.ofNat 2) (FP.ofNat 3) (FP.ofNat 4)) [1, 0] true
      { exampleState with gpsFix := true }).2 = { exampleState with gpsFix := false } ∧
    (readGPS (stubGPS (FP.ofNat 1) (FP.ofNat 2) (FP.ofNat 3) (FP.ofNat 4)) [0, 1] false
      exampleState).2.gpsFix = true :=
  ⟨((readGPS_fix (stubGPS (FP.ofNat 1) (FP.ofNat 2) (FP.ofNat 3) (FP.ofNat 4)) [1, 0] true
      { exampleState with gpsFix := true }).2.1 rfl).2.2.2.2.2,
   ((readGPS_fix (stubGPS (FP.ofNat 1) (FP.ofNat 2) (FP.ofNat 3) (FP.ofNat 4)) [0, 1] false
      exampleState).2.2 rfl).2.2.2.2⟩

/-- C6: if `performReading()` fails, `readBME688` leaves Sensor State exactly as it
was (so temperature, humidity, pressure and gasResistance keep their values), and
after the whole of `updateSensors` the four environmental fields, the battery
percentage and the RSSI still have their pre-call values: only the position fields,
`gpsFix` and the timestamp may differ. -/
theorem readBME688_failure {G : Type} (P : TinyGPSPlus G) (inp : TickInput) (g : G)
    (s : SensorData) (hfail : inp.bmeOk = false) :
    readBME688 inp.bmeOk inp.bme s = s ∧
    (updateSensors P inp g s).2.temperature = s.temperature ∧
    (updateSensors P inp g s).2.humidity = s.humidity ∧
    (updateSensors P inp g s).2.pressure = s.pressure ∧
    (updateSensors P inp g s).2.gasResistance = s.gasResistance ∧
    (updateSensors P inp g s).2.batteryPercent = s.batteryPercent ∧
    (updateSensors P inp g s).2.loraRSSI = s.loraRSSI := by
  have hb : ∀ x : SensorData, readBME688 inp.bmeOk inp.bme x = x := by
    intro x
    simp [readBME688, hfail]
  refine ⟨hb s, ?_⟩
  unfold updateSensors
  simp only [hb]
  unfold readGPS
  by_cases h : P.isValid (inp.serial2.foldl P.encode g) = true <;> simp [h]

/-- Witness for C6: a failed environmental read during an acquisition that does
get a position fix keeps the example temperature. -/
theorem readBME688_failure_witness :
    ({ idleTick 7 with serial2 := [1] } : TickInput).bmeOk = false ∧
    (updateSensors (stubGPS (FP.ofNat 1) (FP.ofNat 2) (FP.ofNat 3) (FP.ofNat 4))
      { idleTick 7 with serial2 := [1] } false exampleState).2.temperature =
      exampleState.temperature :=
  ⟨rfl,
   (readBME688_failure (stubGPS (FP.ofNat 1) (FP.ofNat 2) (FP.ofNat 3) (FP.ofNat 4))
      { idleTick 7 with serial2 := [1] } false exampleState rfl).2.1⟩

/-- C9: whatever the positioning fix (valid or not) and whatever the outcome of the
environmental read (success or failure), after `updateSensors` the timestamp is the
value of `millis()` read at the end of the task, as a 32-bit unsigned value. -/
theorem updateSensors_timestamp {G : Type} (P : TinyGPSPlus G) (inp : TickInput) (g : G)
    (s : SensorData) :
    (updateSensors P inp g s).2.timestamp = inp.stampMillis % U32 ∧
    ∀ valid ok : Bool,
      P.isValid (inp.serial2.foldl P.encode g) = valid → inp.bmeOk = ok →
      (updateSensors P inp g s).2.timestamp = inp.stampMillis % U32 := by
  have h : (updateSensors P inp g s).2.timestamp = inp.stampMillis % U32 := rfl
  exact ⟨h, fun _ _ _ _ => h⟩

/-- Witness for C9: a tick whose position fix is invalid and whose environmental
read fails still stamps the clock value 7. -/
theorem updateSensors_timestamp_witness :
    (updateSensors (stubGPS FP.zero FP.zero FP.zero FP.zero) (idleTick 7) false
      exampleState).2.timestamp = 7 :=
  (updateSensors_timestamp (stubGPS FP.zero FP.zero FP.zero FP.zero) (idleTick 7) false
    exampleState).2 false false rfl rfl

/-! ## Logger -/

theorem digitChar_ne_t : ∀ d, d < 10 → Nat.digitChar d ≠ 't' := by decide

theorem toDigitsCore_head (fuel : Nat) : ∀ (n : Nat) (acc : List Char),
    (∀ c ∈ acc.head?, c ≠ 't') → ∀ c ∈ (Nat.toDigitsCore 10 fuel n acc).head?, c ≠ 't' := by
  induction fuel with
  | zero => intro n acc h; simpa [Nat.toDigitsCore] using h
  | succ f ih =>
    intro n acc h
    have hd : Nat.digitChar (n % 10) ≠ 't' := digitChar_ne_t _ (Nat.mod_lt _ (by decide))
    simp only [Nat.toDigitsCore]
    split
    · simpa using hd
    · exact ih _ _ (by simpa using hd)

theorem toDigitsCore_ne_nil (fuel : Nat) : ∀ (n : Nat) (acc : List Char),
    Nat.toDigitsCore 10 (fuel + 1) n acc ≠ [] := by
  induction fuel with
  | zero => intro n acc; simp [Nat.toDigitsCore]
  | succ f ih =>
    intro n acc
    rw [Nat.toDigitsCore]
    split
    · simp
    · exact ih _ _

theorem uintToString_head (n : Nat) :
    ∃ c tl, (uintToString n).data = c :: tl ∧ c ≠ 't' := by
  have h1 := toDigitsCore_head (n + 1) n [] (by simp)
  have h2 := toDigitsCore_ne_nil n n []
  have hd : (uintToString n).data = Nat.toDigitsCore 10 (n + 1) n [] := rfl
  rw [hd]
  cases h : Nat.toDigitsCore 10 (n + 1) n [] with
  | nil => exact absurd h h2
  | cons c tl =>
    rw [h] at h1
    exact ⟨c, tl, rfl, h1 c (by simp)⟩

/-- A data row is never the header line: it starts with a decimal digit. -/
theorem logLine_ne_csvHeader (s : SensorData) : logLine s ≠ csvHeader := by
  intro h
  obtain ⟨c, tl, hc, hne⟩ := uintToString_head s.timestamp
  have h2 := congrArg String.data h
  simp only [logLine, String.data_append, hc] at h2
  have h3 : csvHeader.data.head? = some 't' := by decide
  rw [← h2] at h3
  simp at h3
  exact hne h3

theorem headerCount_append_row (sd : SDLog) (s : SensorData) (fr : Bool) :
    headerCount { firstRun := fr, lines := sd.lines ++ [logLine s] } = headerCount sd ∧
    rowCount { firstRun := fr, lines := sd.lines ++ [logLine s] } = rowCount sd + 1 := by
  have h := logLine_ne_csvHeader s
  constructor
  · simp [headerCount, List.count_append, List.count_cons, h]
  · simp [rowCount, List.filter_append, List.filter_cons, h]

theorem headerCount_append_header (sd : SDLog) (fr : Bool) :
    headerCount { firstRun := fr, lines := sd.lines ++ [csvHeader] } = headerCount sd + 1 ∧
    rowCount { firstRun := fr, lines := sd.lines ++ [csvHeader] } = rowCount sd := by
  constructor
  · simp [headerCount, List.count_append, List.count_cons]
  · simp [rowCount, List.filter_append, List.filter_cons]

theorem logToSD_later (s : SensorData) (w a : Bool) (sd : SDLog) (h : sd.firstRun = false) :
    (logToSD s w a sd).firstRun = false ∧
    headerCount (logToSD s w a sd) = headerCount sd ∧
    rowCount (logToSD s w a sd) = rowCount sd + (if a then 1 else 0) := by
  cases sd with
  | mk fr lines =>
    simp only at h
    subst h
    cases a
    · simp [logToSD]
    · have hr := headerCount_append_row ⟨false, lines⟩ s false
      simpa [logToSD] using hr

theorem logToSD_first (s : SensorData) (w a : Bool) (sd : SDLog) (h : sd.firstRun = true) :
    (logToSD s w a sd).firstRun = false ∧
    headerCount (logToSD s w a sd) = headerCount sd + (if w then 1 else 0) ∧
    rowCount (logToSD s w a sd) = rowCount sd + (if a then 1 else 0) := by
  cases sd with
  | mk fr lines =>
    simp only at h
    subst h
    have hh := headerCount_append_header ⟨true, lines⟩ false
    cases w <;> cases a
    · simp [logToSD, headerCount, rowCount]
    · have hr := headerCount_append_row ⟨false, lines⟩ s false
      simpa [logToSD, headerCount, rowCount] using hr
    · simpa [logToSD] using hh
    · have hr := headerCount_append_row ⟨false, lines ++ [csvHeader]⟩ s false
      simp only [logToSD, if_true]
      refine ⟨trivial, ?_, ?_⟩
      · exact hr.1.trans hh.1
      · exact hr.2.trans (by rw [hh.2])

theorem logRun_later : ∀ (calls : List (SensorData × Bool × Bool)) (sd : SDLog),
    sd.firstRun = false →
    headerCount (logRun calls sd) = headerCount sd ∧
    rowCount (logRun calls sd) = rowCount sd + (calls.filter (fun c => c.2.2)).length := by
  intro calls
  induction calls with
  | nil => intro sd _; simp [logRun]
  | cons c rest ih =>
    intro sd h
    obtain ⟨h1, h2, h3⟩ := logToSD_later c.1 c.2.1 c.2.2 sd h
    have := ih (logToSD c.1 c.2.1 c.2.2 sd) h1
    simp only [logRun, List.foldl_cons] at this ⊢
    rw [this.1, this.2, h2, h3]
    cases hc : c.2.2
    · simp [List.filter_cons, hc]
    · simp [List.filter_cons, hc]
      omega

/-- C7 (as stated, refuted): a run of one `logToSD` dispatch whose open-for-write
fails and whose open-for-append succeeds writes no header line at all, and one
data row. -/
theorem logToSD_header_counterexample :
    headerCount (logRun [(exampleState, false, true)] {}) = 0 ∧
    headerCount (logRun [(exampleState, false, true)] {}) ≠ 1 ∧
    rowCount (logRun [(exampleState, false, true)] {}) = 1 := by
  have h := logToSD_first exampleState false true {} rfl
  have e : logRun [(exampleState, false, true)] {} = logToSD exampleState false true {} := rfl
  rw [e, h.2.1, h.2.2]
  decide

/-- C7 (amended): over a run of `k ≥ 1` dispatches of `logToSD` from program start,
the number of header lines written is one if the open-for-write of the first
dispatch succeeded and zero otherwise, and the number of data rows written is
the number of dispatches whose open-for-append succeeded. -/
theorem logToSD_counts (c : SensorData × Bool × Bool) (cs : List (SensorData × Bool × Bool)) :
    headerCount (logRun (c :: cs) {}) = (if c.2.1 then 1 else 0) ∧
    headerCount (logRun (c :: cs) {}) ≤ 1 ∧
    rowCount (logRun (c :: cs) {}) = ((c :: cs).filter (fun c => c.2.2)).length := by
  obtain ⟨h1, h2, h3⟩ := logToSD_first c.1 c.2.1 c.2.2 {} rfl
  have hl := logRun_later cs (logToSD c.1 c.2.1 c.2.2 {}) h1
  have e : logRun (c :: cs) {} = logRun cs (logToSD c.1 c.2.1 c.2.2 {}) := rfl
  have z1 : headerCount {} = 0 := rfl
  have z2 : rowCount {} = 0 := rfl
  rw [e, hl.1, hl.2, h2, h3, z1, z2]
  refine ⟨by simp, by split <;> simp, ?_⟩
  cases hc : c.2.2
  · simp [List.filter_cons, hc]
  · simp [List.filter_cons, hc]
    omega

/-! ## Telemetry payload -/

/-- C8 (as stated, refuted): the `float` nearest to 20.654321 is
`10828813 / 2 ^ 19 = 20.6543216705322265625`, which renders with 6 decimals as
`20.654322`; the payload of the example state therefore does not carry the
substring `20.654321`. Truncating instead of rounding does not help: the stored
temperature `23.3999996185302734375` then renders as `23.3`. -/
theorem transmitLoRa_example_counterexample :
    exampleState.longitude = ⟨false, 10828813, 19⟩ ∧
    floatToString exampleState.longitude 6 = "20.654322" ∧
    floatToString exampleState.longitude 6 ≠ "20.654321" ∧
    transmitLoRa exampleState ≠
      "\x7b\"lat\":10.123456,\"lon\":20.654321,\"alt\":15.0,\"temp\":23.4,\"hum\":0.0,\"pres\":0.0\x7d" ∧
    floatToStringTrunc exampleState.temperature 1 = "23.3" := by
  refine ⟨by decide, by decide, by decide, by decide, by decide⟩

/-- C8 (amended): for every Sensor State the payload handed to the radio is the text
`{"lat":L,"lon":O,"alt":A,"temp":T,"hum":H,"pres":P}` with latitude and longitude
rendered with 6 decimals and altitude, temperature, humidity and pressure with 1
decimal, whatever `gpsFix` is; for lat=10.123456, lon=20.654321, alt=15.0,
temp=23.4 stored as `float` the numeric substrings are `10.123456`, `20.654322`,
`15.0` and `23.4`. -/
theorem transmitLoRa_payload (s : SensorData) (fix : Bool) :
    transmitLoRa s =
      "\x7b\"lat\":" ++ floatToString s.latitude 6 ++ ",\"lon\":" ++
        floatToString s.longitude 6 ++ ",\"alt\":" ++ floatToString s.altitude 1 ++
        ",\"temp\":" ++ floatToString s.temperature 1 ++ ",\"hum\":" ++
        floatToString s.humidity 1 ++ ",\"pres\":" ++ floatToString s.pressure 1 ++ "\x7d" ∧
    transmitLoRa { s with gpsFix := fix } = transmitLoRa s ∧
    floatToString exampleState.latitude 6 = "10.123456" ∧
    floatToString exampleState.longitude 6 = "20.654322" ∧
    floatToString exampleState.altitude 1 = "15.0" ∧
    floatToString exampleState.temperature 1 = "23.4" ∧
    transmitLoRa exampleState =
      "\x7b\"lat\":10.123456,\"lon\":20.654322,\"alt\":15.0,\"temp\":23.4,\"hum\":0.0,\"pres\":0.0\x7d" := by
  refine ⟨?_, rfl, by decide, by decide, by decide, by decide, by decide⟩
  apply String.ext
  simp only [transmitLoRa, String.data_append, List.append_assoc]
  rfl

end TinyWaterStation
